import Mathlib

unseal Rat.add Rat.mul Rat.sub Rat.inv

/-!
A verification development for the debt-tracker repository.

Shallow embedding conventions:
* Python `float` values are embedded as `ℚ` with exact arithmetic; decimal
  literals from the source (`1e-6`, `0.05`) become the exact rationals they
  denote.  Binary floating-point rounding is not modelled.
* Python `dict`s (insertion ordered, unique keys) are embedded as association
  lists `List (String × α)`; `dict[k]` is `List.lookup`, `k in dict` is
  "lookup is some", and `dict[k] = v` is `dictInsert` (replace-in-place or
  append, as Python does).
* `datetime` values are embedded as `Timestamp` (whole seconds since the epoch
  plus a microsecond part), which captures exactly what the claims need from
  time: equality, differences and the whole-second truncation performed by the
  storage format string.
* Generators are embedded as the lists of the values they yield; `continue`
  inside a loop body becomes `List.filter` / `List.filterMap`.
* Calendar/text rendering of instants (`strftime`, `str(timedelta)`) is
  display-only in the source; it is abstracted to canonical injective
  renderings of the same data, flagged at each definition.  No claim depends
  on the rendered text of an instant.
-/

/-- A point in time: whole seconds since the Unix epoch (UTC) and a
microsecond part in `[0, 1000000)`.  Embeds Python's tz-aware `datetime`. -/
structure Timestamp where
  sec : ℤ
  usec : ℕ
deriving DecidableEq

/-- The instant denoted by a string produced by the storage format
`'%Y-%m-%d %H:%M:%S%z'`.  That format renders the calendar fields down to
whole seconds and the timezone, and nothing else (no `%f`), so the rendered
string carries exactly a whole-second UTC instant; we represent the string by
that instant. -/
structure StorageInstant where
  sec : ℤ
deriving DecidableEq

namespace Utils

/-- `utils.MAX_ATTEMPTS`. -/
def MAX_ATTEMPTS : Nat := 3

/-- `utils.MIN_TIME = datetime(MINYEAR, 1, 1, tzinfo=utc)`, as epoch seconds. -/
def MIN_TIME : Timestamp := ⟨-62135596800, 0⟩

/-- One network attempt as seen by `fetch_url`: either an HTTP response
(status code and body text) or an exception raised by the GET itself. -/
inductive AttemptOutcome where
  | response : Nat → String → AttemptOutcome
  | exn : String → AttemptOutcome
deriving DecidableEq

/-- `utils.fetch_url` (lines 15-33): the retry loop, given the successive
network outcomes the world produces for each attempt.  Mirrors the source:
a non-200 status raises, any exception is retried until the attempt counter
reaches `MAX_ATTEMPTS`, at which point the last exception propagates.
`Except.error` is a raised exception, `Except.ok` the returned text. -/
def fetch_url (outcomes : List AttemptOutcome) (attempts : Nat) : Except String String :=
  match outcomes with
  | [] => Except.error "Should not reach this part."
  | o :: rest =>
    if attempts < MAX_ATTEMPTS then
      match o with
      | AttemptOutcome.response code text =>
        if code ≠ 200 then
          if attempts + 1 ≥ MAX_ATTEMPTS then
            Except.error "URL fetch attempt did not return 200"
          else fetch_url rest (attempts + 1)
        else Except.ok text
      | AttemptOutcome.exn e =>
        if attempts + 1 ≥ MAX_ATTEMPTS then Except.error e
        else fetch_url rest (attempts + 1)
    else Except.error "Should not reach this part."

/-- The `timedelta` between two timestamps, in microseconds. -/
def timestampDiffMicro (a b : Timestamp) : ℤ :=
  (b.sec * 1000000 + (b.usec : ℤ)) - (a.sec * 1000000 + (a.usec : ℤ))

/-- `utils.format_timedelta` (lines 37-52) over a timedelta given in
microseconds.  `delta.days` is the floor of the total over a day and
`delta.seconds` the non-negative remainder in whole seconds, exactly as
Python normalises a `timedelta`. -/
def format_timedelta (micro : ℤ) : String :=
  let days := Int.fdiv micro 86400000000
  let remMicro := Int.fmod micro 86400000000
  let secs := Int.fdiv remMicro 1000000
  let hours := Int.fdiv secs 3600
  let minutes := Int.fdiv (Int.fmod secs 3600) 60
  let seconds := Int.fmod secs 60
  let tokens :=
    (if days ≠ 0 then [toString days ++ " days"] else []) ++
    (if hours ≠ 0 then [toString hours ++ " hours"] else []) ++
    (if minutes ≠ 0 then [toString minutes ++ " minutes"] else []) ++
    [toString seconds ++ " seconds"]
  String.intercalate ", " tokens

/-- `utils.display_time` (line 56-57).  Modelled display: the
`'%Y-%m-%d %H:%M:%S'` calendar rendering is abstracted to a canonical
injective rendering of the whole-second instant it shows; like the format
string, it drops the microsecond part.  No claim depends on this text. -/
def display_time (time : Timestamp) : String := toString time.sec

/-- `utils.format_storage_time` (lines 61-62): renders with
`'%Y-%m-%d %H:%M:%S%z'`, i.e. exactly the whole-second instant; the
microsecond part is not rendered (`%f` is absent from the format). -/
def format_storage_time (time : Timestamp) : StorageInstant := ⟨time.sec⟩

/-- `utils.parse_storage_time` (lines 66-67): parsing the storage string
recovers the whole-second instant; the microsecond part of the parsed
`datetime` is zero. -/
def parse_storage_time (s : StorageInstant) : Timestamp := ⟨s.sec, 0⟩

end Utils

/-- Pad a string on the left with spaces to the given width (Python numeric
field width, e.g. `{:14,.2f}`). -/
def padLeft (w : Nat) (s : String) : String :=
  String.mk (List.replicate (w - s.length) ' ') ++ s

/-- Pad a string on the right with spaces to the given width (Python
`{:<7s}`). -/
def padRight (w : Nat) (s : String) : String :=
  s ++ String.mk (List.replicate (w - s.length) ' ')

/-- Insert a thousands separator every three characters, input reversed. -/
def groupRev : List Char → List Char
  | a :: b :: c :: d :: rest => a :: b :: c :: ',' :: groupRev (d :: rest)
  | l => l

/-- Group the digits of a decimal string with commas (Python `,` format
option). -/
def commaGroup (s : String) : String :=
  String.mk (groupRev s.data.reverse).reverse

/-- Round a rational to the nearest integer, ties to even (the rounding used
when Python formats a number with a fixed number of decimals).  Exact
rational rounding stands in for the rounding of the binary-float value. -/
def roundHalfEven (q : ℚ) : ℤ :=
  let f := ⌊q⌋
  let r := q - (f : ℚ)
  if r < 1/2 then f
  else if 1/2 < r then f + 1
  else if f % 2 = 0 then f else f + 1

/-- Python fixed-point formatting `{:[+][,].Nf}` of a rational:
optional forced sign, optional comma grouping, `decimals` digits after the
point. -/
def formatFixed (signAlways : Bool) (grouping : Bool) (decimals : Nat) (q : ℚ) : String :=
  let scaled := roundHalfEven (|q| * (10 : ℚ) ^ decimals)
  let n := scaled.toNat
  let ip := n / 10 ^ decimals
  let fp := n % 10 ^ decimals
  let sign := if q < 0 then "-" else if signAlways then "+" else ""
  let ipStr := if grouping then commaGroup (toString ip) else toString ip
  let fpRaw := toString fp
  let fpStr := String.mk (List.replicate (decimals - fpRaw.length) '0') ++ fpRaw
  if decimals = 0 then sign ++ ipStr else sign ++ ipStr ++ "." ++ fpStr

namespace DebtLib

/-- `debt_lib.LARGE_OVERALL_CHANGE` (1 million USD). -/
def LARGE_OVERALL_CHANGE : ℚ := 1000000

/-- `debt_lib.LARGE_INDIVIDUAL_CHANGE` (100,000 USD). -/
def LARGE_INDIVIDUAL_CHANGE : ℚ := 100000

/-- `debt_lib.LARGE_LTV_CHANGE` (the float literal `0.05`, embedded as the
exact rational it denotes in decimal). -/
def LARGE_LTV_CHANGE : ℚ := 5/100

/-- `debt_lib.MIN_AMOUNT`. -/
def MIN_AMOUNT : ℚ := 100

/-- `debt_lib.MESSAGE_DELIMITER`. -/
def MESSAGE_DELIMITER : String := "================="

/-- The additive epsilon `1e-6` used in every denominator of the source. -/
def eps : ℚ := 1/1000000

/-- The per-key value record stored in `individual_debts` (the dict built at
`debt_lib.py` lines 103-111). -/
structure Debt where
  usd : ℚ
  tokens : ℚ
  symbol : String
  price : ℚ
  token_ltv : ℚ
  position_ltv : ℚ
  asset_usd : ℚ
deriving DecidableEq

/-- `debt_lib.DebtPosition` (lines 35-72): one snapshot. -/
structure DebtPosition where
  time : Timestamp
  address : String
  tag : String
  total_assets : ℚ
  total_debt : ℚ
  individual_debts : List (String × Debt)
deriving DecidableEq

/-- One row of the savefile CSV (fields of `SAVEFILE_FIELDS`).  Python's
`float`→`str`→`float` and `json.dumps`→`json.loads` round trips are exact
(repr round-tripping), so the numeric and mapping columns are carried
exactly; the `time` column goes through the storage format string. -/
structure CsvRow where
  time : StorageInstant
  address : String
  tag : String
  total_assets : ℚ
  total_debt : ℚ
  individual_debts : List (String × Debt)
deriving DecidableEq

/-- `DebtPosition.to_csv_row` (lines 64-72). -/
def DebtPosition.to_csv_row (p : DebtPosition) : CsvRow :=
  ⟨Utils.format_storage_time p.time, p.address, p.tag,
    p.total_assets, p.total_debt, p.individual_debts⟩

/-- `DebtPosition.from_csv_row` (lines 56-62). -/
def DebtPosition.from_csv_row (r : CsvRow) : DebtPosition :=
  ⟨Utils.parse_storage_time r.time, r.address, r.tag,
    r.total_assets, r.total_debt, r.individual_debts⟩

/-- `debt_lib._compute_total_debt` (lines 75-76). -/
def _compute_total_debt (individual_debts : List (String × Debt)) : ℚ :=
  (individual_debts.map (fun kv => kv.2.usd)).sum

/-- The keys of a snapshot's positions mapping. -/
def keysOf (p : DebtPosition) : List String := p.individual_debts.map Prod.fst

/-- One entry of a DeBank `borrow_token_list`: the fields the parser reads. -/
structure BorrowToken where
  symbol : String
  price : ℚ
  amount : ℚ
deriving DecidableEq

/-- One entry of a protocol's `portfolio_item_list`: the fields the parser
reads.  `borrow_token_list = none` models `'borrow_token_list' not in
item['detail']`; `supply_token_symbols` are the symbols of
`detail.supply_token_list` (the only part of that list the parser uses). -/
structure PortfolioItem where
  borrow_token_list : Option (List BorrowToken)
  supply_token_symbols : List String
  debt_usd_value : ℚ
  asset_usd_value : ℚ
deriving DecidableEq

/-- One protocol of the decoded DeBank response: the fields the parser
reads. -/
structure Protocol where
  name : String
  chain : String
  portfolio_item_list : List PortfolioItem
deriving DecidableEq

/-- Python `dict` assignment `d[k] = v` on an association list: replace the
value in place if the key is present, else append. -/
def dictInsert (l : List (String × Debt)) (k : String) (v : Debt) : List (String × Debt) :=
  if l.any (fun kv => kv.1 == k) then
    l.map (fun kv => if kv.1 == k then (k, v) else kv)
  else l ++ [(k, v)]

/-- The position key built at `debt_lib.py` line 99. -/
def _debt_key (protocol : Protocol) (supply_token_symbols : List String)
    (borrow_symbol : String) : String :=
  protocol.name ++ " (" ++ protocol.chain ++ "), supply " ++
    String.intercalate "/" supply_token_symbols ++ ", borrow " ++ borrow_symbol

/-- The per-borrow-token entry written into `individual_debts`
(`debt_lib.py` lines 98-111). -/
def btEntry (protocol : Protocol) (item : PortfolioItem) (bt : BorrowToken) :
    String × Debt :=
  (_debt_key protocol item.supply_token_symbols bt.symbol,
    { usd := bt.amount * bt.price
      tokens := bt.amount
      symbol := bt.symbol
      price := bt.price
      token_ltv := bt.amount * bt.price / (item.asset_usd_value + eps)
      position_ltv := item.debt_usd_value / (item.asset_usd_value + eps)
      asset_usd := item.asset_usd_value })

/-- The body of the inner loop of `_parse_protocol_balance` (lines 98-111):
store one borrow token's entry into the accumulating snapshot. -/
def _parse_borrow_token (protocol : Protocol) (item : PortfolioItem)
    (acc : DebtPosition) (bt : BorrowToken) : DebtPosition :=
  let e := btEntry protocol item bt
  { acc with individual_debts := dictInsert acc.individual_debts e.1 e.2 }

/-- One iteration of the outer loop of `_parse_protocol_balance`
(lines 85-113): skip items without a `borrow_token_list` and items whose
`asset_usd_value` is falsy (zero); otherwise record every borrow token and
add the item's stats to the totals. -/
def _parse_protocol_item (protocol : Protocol) (acc : DebtPosition)
    (item : PortfolioItem) : DebtPosition :=
  match item.borrow_token_list with
  | none => acc
  | some borrow_tokens =>
    if item.asset_usd_value = 0 then acc
    else
      let acc1 := borrow_tokens.foldl (_parse_borrow_token protocol item) acc
      { acc1 with
          total_assets := acc1.total_assets + item.asset_usd_value
          total_debt := acc1.total_debt + item.debt_usd_value }

/-- `debt_lib._parse_protocol_balance` (lines 84-113). -/
def _parse_protocol_balance (protocol : Protocol) (acc : DebtPosition) : DebtPosition :=
  protocol.portfolio_item_list.foldl (_parse_protocol_item protocol) acc

/-- `debt_lib._query_new_debts_debank` (lines 116-132), with the HTTP fetch
and JSON decode abstracted into the already-decoded `protocols` list and the
current time passed in. -/
def _query_new_debts_debank (protocols : List Protocol) (time : Timestamp)
    (address tag : String) : DebtPosition :=
  protocols.foldl (fun acc p => _parse_protocol_balance p acc)
    ⟨time, address, tag, 0, 0, []⟩

/-- The keys `_parse_protocol_item` would store for one portfolio item. -/
def itemKeys (protocol : Protocol) (item : PortfolioItem) : List String :=
  match item.borrow_token_list with
  | none => []
  | some borrow_tokens =>
    if item.asset_usd_value = 0 then []
    else borrow_tokens.map (fun bt => (btEntry protocol item bt).1)

/-- The keys `_parse_protocol_balance` would store for one protocol. -/
def protocolKeys (protocol : Protocol) : List String :=
  (protocol.portfolio_item_list.map (itemKeys protocol)).flatten

/-- All keys the fetch parser would store for a decoded response. -/
def emittedKeys (protocols : List Protocol) : List String :=
  (protocols.map protocolKeys).flatten

/-- Internal consistency of one upstream portfolio item: its reported
`debt_usd_value` is the sum over its borrow tokens of `amount * price`.
(The parser trusts the upstream payload; this is the condition under which
the snapshot-level total-debt invariant can hold.) -/
def consistencyItem (item : PortfolioItem) : Prop :=
  match item.borrow_token_list with
  | none => True
  | some borrow_tokens =>
    item.asset_usd_value = 0 ∨
      item.debt_usd_value = (borrow_tokens.map (fun bt => bt.amount * bt.price)).sum

instance instDecidableConsistencyItem (item : PortfolioItem) :
    Decidable (consistencyItem item) := by
  unfold consistencyItem
  cases item.borrow_token_list with
  | none => exact inferInstance
  | some borrow_tokens => exact inferInstance

/-- The sort `sorted(d.items(), key=lambda x: -x[1]['usd'])` used by the
iteration and display functions (descending by USD value). -/
def sortByUsdDesc (l : List (String × Debt)) : List (String × Debt) :=
  l.insertionSort (fun a b => b.2.usd ≤ a.2.usd)

/-- `debt_lib._iterate_individual_debts` (lines 177-190) as the list of
yielded `(name, prev_value, curr_value)` triples: every current position
(with the previous value looked up when the key exists in the previous
snapshot), then every previous position whose key is absent from the current
snapshot. -/
def _iterate_individual_debts (prev_debts curr_debts : DebtPosition) :
    List (String × Option Debt × Option Debt) :=
  (sortByUsdDesc curr_debts.individual_debts).map
    (fun kv => (kv.1, prev_debts.individual_debts.lookup kv.1, some kv.2)) ++
  ((sortByUsdDesc prev_debts.individual_debts).filter
    (fun kv => (curr_debts.individual_debts.lookup kv.1).isNone)).map
    (fun kv => (kv.1, some kv.2, none))

/-- `debt_lib.DebtDiff` (lines 204-217). -/
structure DebtDiff where
  change_usd : ℚ
  change_tokens : ℚ
  prev_ltv : ℚ
  curr_ltv : ℚ
  symbol : String
  display_name : String
deriving DecidableEq

/-- Keep the characters before the first occurrence of `pat`; drop the rest. -/
def stripFromSub (pat : List Char) : List Char → List Char
  | [] => []
  | c :: rest => if pat.isPrefixOf (c :: rest) then [] else c :: stripFromSub pat rest

/-- `re.sub(r', borrow.*', '', name)` (lines 140 and 253): delete everything
from the first occurrence of ", borrow" onwards.  (Position keys contain no
newline, so the regex `.*` reaches the end of the string.) -/
def _display_name (name : String) : String :=
  String.mk (stripFromSub ", borrow".data name.data)

/-- The skip test of `_iterate_individual_diffs` (lines 241-244), on a
yielded triple: both recomputed USD values below the floor, or both
collateral values below the floor. -/
def isDustEntry (e : String × Option Debt × Option Debt) : Bool :=
  let prev_tokens := match e.2.1 with | some d => d.tokens | none => 0
  let curr_tokens := match e.2.2 with | some d => d.tokens | none => 0
  let price := match e.2.2, e.2.1 with
    | some d, _ => d.price
    | none, some d => d.price
    | none, none => 0
  let prev_asset_usd := match e.2.1 with | some d => d.asset_usd | none => 0
  let curr_asset_usd := match e.2.2 with | some d => d.asset_usd | none => 0
  decide ((price * prev_tokens < MIN_AMOUNT ∧ price * curr_tokens < MIN_AMOUNT) ∨
    (prev_asset_usd < MIN_AMOUNT ∧ curr_asset_usd < MIN_AMOUNT))

/-- The loop body of `_iterate_individual_diffs` (lines 227-262) on one
yielded triple: `none` when the position is skipped by the minimum-amount
test, otherwise the yielded `DebtDiff`.  Both USD values are recomputed at
one price: the current price when the key is present now, else the previous
price (the `none, none` fallbacks are unreachable: the iterator never yields
a triple with both values absent). -/
def diffOfEntry (e : String × Option Debt × Option Debt) : Option DebtDiff :=
  let name := e.1
  let prev_debt := e.2.1
  let curr_debt := e.2.2
  let prev_tokens := match prev_debt with | some d => d.tokens | none => 0
  let curr_tokens := match curr_debt with | some d => d.tokens | none => 0
  let price := match curr_debt, prev_debt with
    | some d, _ => d.price
    | none, some d => d.price
    | none, none => 0
  let prev_debt_usd := price * prev_tokens
  let curr_debt_usd := price * curr_tokens
  let symbol := match curr_debt, prev_debt with
    | some d, _ => d.symbol
    | none, some d => d.symbol
    | none, none => ""
  let prev_ltv := match prev_debt with | some d => d.position_ltv | none => 0
  let curr_ltv := match curr_debt with | some d => d.position_ltv | none => 0
  let prev_asset_usd := match prev_debt with | some d => d.asset_usd | none => 0
  let curr_asset_usd := match curr_debt with | some d => d.asset_usd | none => 0
  if (prev_debt_usd < MIN_AMOUNT ∧ curr_debt_usd < MIN_AMOUNT) ∨
     (prev_asset_usd < MIN_AMOUNT ∧ curr_asset_usd < MIN_AMOUNT) then none
  else some
    { change_usd := curr_debt_usd - prev_debt_usd
      change_tokens := curr_tokens - prev_tokens
      prev_ltv := prev_ltv
      curr_ltv := curr_ltv
      symbol := symbol
      display_name := _display_name name }

/-- `debt_lib._iterate_individual_diffs` (lines 225-262) as the list of
yielded `DebtDiff`s. -/
def _iterate_individual_diffs (prev_debts debts : DebtPosition) : List DebtDiff :=
  (_iterate_individual_debts prev_debts debts).filterMap diffOfEntry

/-- `debt_lib._get_debt_change` (lines 265-269). -/
def _get_debt_change (prev_debts debts : DebtPosition) : ℚ :=
  ((_iterate_individual_diffs prev_debts debts).map DebtDiff.change_usd).sum

/-- `debt_lib._get_relative_debt_change` (lines 272-274). -/
def _get_relative_debt_change (prev_debts debts : DebtPosition) : ℚ :=
  _get_debt_change prev_debts debts / (prev_debts.total_debt + eps)

/-- The aggregate-increase alert text (line 291).  The leading characters are
the file's literal (mojibake) characters, written as unicode escapes. -/
def _increase_message (overall_change overall_relative_change : ℚ) : String :=
  "üí≥ü§ùüíµ Significant INCREASE in debt (" ++
    formatFixed true true 2 overall_change ++ " USD, " ++
    formatFixed true false 1 (overall_relative_change * 100) ++ "%). Bullish."

/-- The aggregate-reduction alert text (line 293). -/
def _reduction_message (overall_change overall_relative_change : ℚ) : String :=
  "üö®üö®üö®üö®üö® ALERT: Significant REDUCTION in debt (" ++
    formatFixed true true 2 overall_change ++ " USD, " ++
    formatFixed true false 1 (overall_relative_change * 100) ++ "%). We gonna get rekt?"

/-- The per-key increase alert text (line 316). -/
def _individual_increase_message : String :=
  "üíµ Significant increase in individual debt position."

/-- The per-key reduction alert text (line 318). -/
def _individual_reduction_message : String :=
  "üö® Significant reduction in individual debt position."

/-- The per-key churn alert text (line 320). -/
def _churn_message : String :=
  "üëÄ Significant churn in individual debt positions."

/-- The LTV-increase alert text (line 324). -/
def _ltv_increase_message : String :=
  "üëÄ Significant LTV increase in individual positions."

/-- The LTV-decrease alert text (line 326). -/
def _ltv_decrease_message : String :=
  "üëÄ Significant LTV decrease in individual positions."

/-- The LTV-churn alert text (line 328). -/
def _ltv_churn_message : String :=
  "üëÄ Significant LTV churn in individual positions."

/-- The diff entries the per-key alert loop actually examines (lines
300-304): every yielded diff whose display name is not in
`ignorable_debts` (the loop's `continue` on ignored names). -/
def consideredDiffs (prev_debts debts : DebtPosition) (ignorable_debts : List String) :
    List DebtDiff :=
  (_iterate_individual_diffs prev_debts debts).filter
    (fun d => !(ignorable_debts.contains d.display_name))

/-- `debt_lib._get_alert_message` (lines 282-330).  The four booleans of the
per-key loop are the or-accumulations over the non-ignored diffs, i.e.
`List.any` over `consideredDiffs`. -/
def _get_alert_message (prev_debts : Option DebtPosition) (debts : DebtPosition)
    (ignorable_debts : List String) : Bool × String :=
  match prev_debts with
  | none => (true, "Starting a new debt log.")
  | some prev_debts =>
    let overall_change := _get_debt_change prev_debts debts
    let overall_relative_change := _get_relative_debt_change prev_debts debts
    if LARGE_OVERALL_CHANGE ≤ overall_change then
      (true, _increase_message overall_change overall_relative_change)
    else if overall_change ≤ -LARGE_OVERALL_CHANGE then
      (true, _reduction_message overall_change overall_relative_change)
    else
      let considered := consideredDiffs prev_debts debts ignorable_debts
      let large_individual_debt_increase :=
        considered.any (fun d => decide (LARGE_INDIVIDUAL_CHANGE ≤ d.change_usd))
      let large_individual_debt_decrease :=
        considered.any (fun d => decide (d.change_usd ≤ -LARGE_INDIVIDUAL_CHANGE))
      let large_ltv_increase :=
        considered.any (fun d => decide (LARGE_LTV_CHANGE ≤ d.curr_ltv - d.prev_ltv))
      let large_ltv_decrease :=
        considered.any (fun d => decide (d.curr_ltv - d.prev_ltv ≤ -LARGE_LTV_CHANGE))
      if large_individual_debt_increase && !large_individual_debt_decrease then
        (true, _individual_increase_message)
      else if large_individual_debt_decrease && !large_individual_debt_increase then
        (true, _individual_reduction_message)
      else if large_individual_debt_increase && large_individual_debt_decrease then
        (true, _churn_message)
      else if large_ltv_increase && !large_ltv_decrease then
        (true, _ltv_increase_message)
      else if large_ltv_decrease && !large_ltv_increase then
        (true, _ltv_decrease_message)
      else if large_ltv_increase && large_ltv_decrease then
        (true, _ltv_churn_message)
      else (false, "")

/-- The positions the full report actually lists (`_print_debts`, lines
136-139): sorted by descending USD value, skipping positions with trivial
debts or trivial collateral. -/
def _print_debts_entries (debts : DebtPosition) : List (String × Debt) :=
  (sortByUsdDesc debts.individual_debts).filter
    (fun kv => !(decide (kv.2.usd < MIN_AMOUNT) || decide (kv.2.asset_usd < MIN_AMOUNT)))

/-- One position line of the full report (line 141). -/
def _print_debts_line (name : String) (value : Debt) : String :=
  padLeft 14 (formatFixed false true 2 value.tokens) ++ " " ++
    padRight 7 value.symbol ++ " (" ++
    padLeft 5 (formatFixed false false 1 (value.position_ltv * 100)) ++ "% LTV) - " ++
    _display_name name

/-- `debt_lib._print_debts` (lines 135-146) as the text written to
`output`. -/
def _print_debts (debts : DebtPosition) : String :=
  String.join ((_print_debts_entries debts).map
    (fun kv => _print_debts_line kv.1 kv.2 ++ "\n")) ++
  "-----------------\n" ++
  padLeft 14 (formatFixed false true 2 debts.total_debt) ++ " USD Total Debt (" ++
  padLeft 5 (formatFixed false false 1
    (debts.total_debt / (debts.total_assets + eps) * 100)) ++ "% LTV)\n\n"

/-- `debt_lib._print_short_debts` (lines 149-151). -/
def _print_short_debts (debts : DebtPosition) : String :=
  "Total Debt: " ++ formatFixed false true 2 debts.total_debt ++ " USD\n\n"

/-- `debt_lib._print_title` (lines 370-372). -/
def _print_title (wallet_name : String) (timestamp : Timestamp) : String :=
  "Debt Positions for " ++ wallet_name ++ " at " ++ Utils.display_time timestamp ++ " UTC\n"

/-- One "notable changes" line (line 361). -/
def _notable_line (d : DebtDiff) : String :=
  padLeft 14 (formatFixed true true 2 d.change_tokens) ++ " " ++
    padRight 7 d.symbol ++ " (LTV: " ++
    padLeft 5 (formatFixed false false 1 (d.prev_ltv * 100)) ++ "% --> " ++
    padLeft 5 (formatFixed false false 1 (d.curr_ltv * 100)) ++ "%) - " ++
    d.display_name

/-- `debt_lib._print_debt_comparison` (lines 333-361) as the text written to
`output`.  The `assert` statements on entity identity and time order are
modelled as no-ops (they hold for rows written by the same tracker); the
bare stdout notices for ignored positions are not part of `output`.  The
once-only header flag becomes: emit the header iff the notable list is
non-empty. -/
def _print_debt_comparison (prev_debts : Option DebtPosition) (debts : DebtPosition)
    (ignorable_debts : List String) : String :=
  match prev_debts with
  | none => ""
  | some prev_debts =>
    let overall_change := _get_debt_change prev_debts debts
    let overall_relative_change := _get_relative_debt_change prev_debts debts
    let time_diff := Utils.timestampDiffMicro prev_debts.time debts.time
    let notable := (_iterate_individual_diffs prev_debts debts).filter
      (fun d => !(ignorable_debts.contains d.display_name) &&
        (decide (LARGE_INDIVIDUAL_CHANGE ≤ |d.change_usd|) ||
         decide (LARGE_LTV_CHANGE ≤ |d.curr_ltv - d.prev_ltv|)))
    "Change: " ++ formatFixed true true 2 overall_change ++ " USD (" ++
      formatFixed true false 1 (overall_relative_change * 100) ++ "%)" ++
      " compared to " ++ Utils.display_time prev_debts.time ++ " UTC (" ++
      Utils.format_timedelta time_diff ++ " ago).\n" ++
    (if notable.isEmpty then ""
     else "\nNotable changes:\n" ++
       String.join (notable.map (fun d => _notable_line d ++ "\n")))

/-- `debt_lib._query_prev_debts` (lines 159-166): the persistence store is
the list of CSV rows in file order; the reader keeps the last row. -/
def _query_prev_debts (store : List CsvRow) : Option DebtPosition :=
  match store.getLast? with
  | none => none
  | some row => some (DebtPosition.from_csv_row row)

/-- `debt_lib._write_debts` (lines 364-367): append one row. -/
def _write_debts (debts : DebtPosition) (store : List CsvRow) : List CsvRow :=
  store ++ [debts.to_csv_row]

/-- The mutable fields of `DebtTracker` that `update()` touches. -/
structure TrackerState where
  last_update_time : Timestamp
  last_alert_time : Timestamp
  last_message : String
deriving DecidableEq

/-- `DebtTracker.update` (lines 495-540), as a function of the tracker's
mutable state, the persistence store, and the result of the fetch step
(`_query_new_debts_debank` behind `fetch_url`; `Except.error` is a raised
exception).  A raised fetch aborts before any mutation, so the state and
store are returned unchanged with the error; otherwise the long and short
messages are rendered, `last_update_time` and `last_message` are updated,
`last_alert_time` is synced iff an alert fired, and the new snapshot is
appended to the store. -/
def update (name subscribe_command : String) (ignorable_debts : List String)
    (st : TrackerState) (store : List CsvRow)
    (fetched : Except String DebtPosition) :
    TrackerState × List CsvRow × Except String (Bool × String) :=
  match fetched with
  | Except.error e => (st, store, Except.error e)
  | Except.ok debts =>
    let prev_debts := _query_prev_debts store
    let alert := _get_alert_message prev_debts debts ignorable_debts
    let has_alert := alert.1
    let alert_message := alert.2
    let message :=
      (if has_alert then alert_message ++ "\n" else "") ++
      _print_title name debts.time ++
      "```\n" ++
      _print_debts debts ++
      _print_debt_comparison prev_debts debts ignorable_debts ++
      "```" ++ MESSAGE_DELIMITER ++ "\n"
    let short_message :=
      (if has_alert then alert_message ++ "\n" else "") ++
      _print_title name debts.time ++
      "```\n" ++
      _print_short_debts debts ++
      _print_debt_comparison prev_debts debts ignorable_debts ++
      "```" ++ MESSAGE_DELIMITER ++
      "(Type `!" ++ subscribe_command ++ "` to get full breakdown.)" ++
      MESSAGE_DELIMITER ++ "\n"
    let st1 : TrackerState :=
      { last_update_time := debts.time
        last_message := message
        last_alert_time := if has_alert then debts.time else st.last_alert_time }
    (st1, _write_debts debts store, Except.ok (has_alert, short_message))

end DebtLib

namespace DebtPy

/-- `debt.LARGE_CHANGE_THRESHOLD` (the float literal `0.05`). -/
def LARGE_CHANGE_THRESHOLD : ℚ := 5/100

/-- `debt.DebtPosition` (debt.py lines 105-138): this variant stores per-key
token balances (plain numbers), and a single `total_debt` aggregate. -/
structure DebtPosition where
  time : Timestamp
  address : String
  tag : String
  total_debt : ℚ
  individual_debts : List (String × ℚ)
deriving DecidableEq

/-- Modelled display: Python's `str(timedelta)` rendering is abstracted to a
canonical injective rendering of the microsecond count; no claim depends on
this text. -/
def timedelta_str (micro : ℤ) : String := toString micro

/-- `debt.get_alert_message` (debt.py lines 200-211).  `None` (falsy, no
alert) is `none`; this variant has no absolute aggregate rule and no per-key
rules, only the relative rule and the elapsed-time rule, with one
sign-independent message. -/
def get_alert_message (prev_debts : Option DebtPosition) (debts : DebtPosition) :
    Option String :=
  match prev_debts with
  | none => some "This is a new debt position."
  | some prev_debts =>
    let change := debts.total_debt - prev_debts.total_debt
    let relative_change := change / (prev_debts.total_debt + DebtLib.eps)
    let time_diff := Utils.timestampDiffMicro prev_debts.time debts.time
    if LARGE_CHANGE_THRESHOLD ≤ |relative_change| then
      some "ALERT: Significant change in debt."
    else if 600000000 ≤ time_diff then
      some (timedelta_str time_diff ++ " hours have elapsed since last update.")
    else none

end DebtPy

namespace Examples

open DebtLib

/-- C1: previous value of key "K" (usd = price·tokens, price 1). -/
def pvC1 : Debt := ⟨100, 100, "TOK", 1, 0, 1/10, 1000⟩

/-- C1: current value of key "K" after a price move to 2 (usd = price·tokens). -/
def cvC1 : Debt := ⟨300, 150, "TOK", 2, 0, 3/10, 1000⟩

/-- C1: previous snapshot. -/
def prevC1 : DebtPosition := ⟨⟨0, 0⟩, "addr", "tag", 1000, 100, [("K", pvC1)]⟩

/-- C1: current snapshot. -/
def currC1 : DebtPosition := ⟨⟨1, 0⟩, "addr", "tag", 1000, 300, [("K", cvC1)]⟩

/-- C1: the diff the code yields for "K": both sides repriced at the current
price 2, so the delta is 2·150 − 2·100 = 100, not 300 − 100 = 200. -/
def dC1 : DebtDiff := ⟨100, 50, 1/10, 3/10, "TOK", "K"⟩

/-- C2: a position that is dust on both sides (recomputed USD 50 < 100). -/
def pvC2 : Debt := ⟨50, 50, "TOK", 1, 0, 0, 1000⟩

/-- C2: snapshot holding only the dust key "K". -/
def prevC2 : DebtPosition := ⟨⟨0, 0⟩, "a", "t", 1000, 50, [("K", pvC2)]⟩

/-- C3: previous value of key "K" (50,000 USD at price 1). -/
def pvC3 : Debt := ⟨50000, 50000, "TOK", 1, 0, 1/20, 1000000⟩

/-- C3: current value of key "K" (75,000 USD, LTV unchanged). -/
def cvC3 : Debt := ⟨75000, 75000, "TOK", 1, 0, 1/20, 1000000⟩

/-- C3: previous snapshot, total debt 50,000 USD. -/
def prevC3 : DebtPosition := ⟨⟨0, 0⟩, "a", "t", 2000000, 50000, [("K", pvC3)]⟩

/-- C3: current snapshot: +25,000 USD = +50% relative, below every
debt_lib threshold. -/
def currC3 : DebtPosition := ⟨⟨1, 0⟩, "a", "t", 2000000, 75000, [("K", cvC3)]⟩

/-- C3: a previous debt.py snapshot with total 100 USD. -/
def prevPyC3 : DebtPy.DebtPosition := ⟨⟨0, 0⟩, "a", "t", 100, []⟩

/-- C3: a current debt.py snapshot with total 200 USD (+100% relative). -/
def currPyC3 : DebtPy.DebtPosition := ⟨⟨1, 0⟩, "a", "t", 200, []⟩

/-- C4 witness: key "A" previous (10,000 USD). -/
def pvC4A : Debt := ⟨10000, 10000, "TA", 1, 0, 0, 1000000⟩

/-- C4 witness: key "A" current (150,000 USD: +140,000). -/
def cvC4A : Debt := ⟨150000, 150000, "TA", 1, 0, 0, 1000000⟩

/-- C4 witness: key "B" previous (150,000 USD). -/
def pvC4B : Debt := ⟨150000, 150000, "TB", 1, 0, 0, 1000000⟩

/-- C4 witness: key "B" current (5,000 USD: −145,000). -/
def cvC4B : Debt := ⟨5000, 5000, "TB", 1, 0, 0, 1000000⟩

/-- C4 witness: previous snapshot. -/
def prevC4 : DebtPosition :=
  ⟨⟨0, 0⟩, "a", "t", 2000000, 160000, [("A", pvC4A), ("B", pvC4B)]⟩

/-- C4 witness: current snapshot (aggregate change −5,000). -/
def currC4 : DebtPosition :=
  ⟨⟨1, 0⟩, "a", "t", 2000000, 155000, [("A", cvC4A), ("B", cvC4B)]⟩

/-- C4 witness: the diff for key "A". -/
def dC4A : DebtDiff := ⟨140000, 140000, 0, 0, "TA", "A"⟩

/-- C4 witness: the diff for key "B". -/
def dC4B : DebtDiff := ⟨-145000, -145000, 0, 0, "TB", "B"⟩

/-- C4 counterexample: key "A" previous (10,000 USD). -/
def pvC4xA : Debt := ⟨10000, 10000, "TA", 1, 0, 0, 1000000⟩

/-- C4 counterexample: key "A" current (+40,000). -/
def cvC4xA : Debt := ⟨50000, 50000, "TA", 1, 0, 0, 1000000⟩

/-- C4 counterexample: key "B" previous (50,000 USD). -/
def pvC4xB : Debt := ⟨50000, 50000, "TB", 1, 0, 0, 1000000⟩

/-- C4 counterexample: key "B" current (−45,000). -/
def cvC4xB : Debt := ⟨5000, 5000, "TB", 1, 0, 0, 1000000⟩

/-- C4 counterexample: previous snapshot (the spec's churn scenario). -/
def prevC4x : DebtPosition :=
  ⟨⟨0, 0⟩, "a", "t", 2000000, 60000, [("A", pvC4xA), ("B", pvC4xB)]⟩

/-- C4 counterexample: current snapshot (changes +40,000 and −45,000). -/
def currC4x : DebtPosition :=
  ⟨⟨1, 0⟩, "a", "t", 2000000, 55000, [("A", cvC4xA), ("B", cvC4xB)]⟩

/-- C5: a full position key (contains ", borrow", as every fetched key does). -/
def keyC5 : String := "P (eth), supply ETH, borrow USDC"

/-- C5: previous value of `keyC5` (100 USD, passes the dust floor). -/
def pvC5 : Debt := ⟨100, 100, "USDC", 1, 0, 0, 1000000⟩

/-- C5: current value of `keyC5` (+200,000 USD). -/
def cvC5 : Debt := ⟨200100, 200100, "USDC", 1, 0, 0, 1000000⟩

/-- C5: previous snapshot. -/
def prevC5 : DebtPosition := ⟨⟨0, 0⟩, "a", "t", 2000000, 100, [(keyC5, pvC5)]⟩

/-- C5: current snapshot. -/
def currC5 : DebtPosition := ⟨⟨1, 0⟩, "a", "t", 2000000, 200100, [(keyC5, cvC5)]⟩

/-- C5: ignore-set holding the display name of `keyC5`. -/
def ignC5 : List String := ["P (eth), supply ETH"]

/-- C6 counterexample: a portfolio item whose reported `debt_usd_value`
(1000) differs from its single borrow token's amount·price (900). -/
def itemC6 : PortfolioItem := ⟨some [⟨"TOK", 1, 900⟩], ["S"], 1000, 5000⟩

/-- C6 counterexample: protocol wrapping `itemC6`. -/
def protoC6 : Protocol := ⟨"P", "eth", [itemC6]⟩

/-- C6 witness: an internally consistent item (900 = 450·2). -/
def itemC6w : PortfolioItem := ⟨some [⟨"TOK", 2, 450⟩], ["S"], 900, 5000⟩

/-- C6 witness: protocol wrapping `itemC6w`. -/
def protoC6w : Protocol := ⟨"P", "eth", [itemC6w]⟩

/-- C7: three network attempts, all raising. -/
def outcomesC7 : List Utils.AttemptOutcome :=
  [Utils.AttemptOutcome.exn "boom", Utils.AttemptOutcome.exn "boom",
    Utils.AttemptOutcome.exn "boom"]

/-- C7: a tracker state before the failing update. -/
def stC7 : TrackerState := ⟨⟨5, 0⟩, ⟨4, 0⟩, "msg"⟩

/-- C7: an arbitrary parse of a response body (never reached). -/
def parseC7 : String → DebtPosition := fun _ => ⟨⟨0, 0⟩, "", "", 0, 0, []⟩

/-- C8 counterexample: a snapshot whose timestamp has microseconds. -/
def pC8 : DebtPosition := ⟨⟨0, 500000⟩, "a", "t", 0, 0, []⟩

/-- C8 witness: a snapshot with a whole-second timestamp. -/
def pC8w : DebtPosition := ⟨⟨10, 0⟩, "a", "t", 1, 2, []⟩

/-- C9 witness: previous value of key "K9" (100 USD). -/
def pvC9 : Debt := ⟨100, 100, "T9", 1, 0, 0, 1000000⟩

/-- C9 witness: current value of key "K9" (+200,000 USD). -/
def cvC9 : Debt := ⟨200100, 200100, "T9", 1, 0, 0, 1000000⟩

/-- C9 witness: previous snapshot. -/
def prevC9 : DebtPosition := ⟨⟨0, 0⟩, "a", "t", 2000000, 100, [("K9", pvC9)]⟩

/-- C9 witness: current snapshot. -/
def currC9 : DebtPosition := ⟨⟨1, 0⟩, "a", "t", 2000000, 200100, [("K9", cvC9)]⟩

/-- C9 witness: the diff for "K9". -/
def dC9 : DebtDiff := ⟨200000, 200000, 0, 0, "T9", "K9"⟩

/-- C10: a position with large debt (100,000 USD) but dust collateral
(50 USD). -/
def dustDebtC10 : Debt := ⟨100000, 100, "T", 1000, 0, 0, 50⟩

/-- C10: snapshot holding only that position. -/
def dpC10 : DebtPosition := ⟨⟨0, 0⟩, "a", "t", 50, 100000, [("K", dustDebtC10)]⟩

end Examples

section HelperLemmas

open DebtLib

/-- Association-list lookup success implies membership. -/
theorem lookup_mem {l : List (String × Debt)} {k : String} {v : Debt}
    (h : l.lookup k = some v) : (k, v) ∈ l := by
  induction l with
  | nil => simp [List.lookup] at h
  | cons hd tl ih =>
    obtain ⟨k', v'⟩ := hd
    by_cases hk : k = k'
    · subst hk
      simp [List.lookup] at h
      simp [h]
    · have hbeq : (k == k') = false := by simpa using hk
      simp [List.lookup, hbeq] at h
      exact List.mem_cons_of_mem _ (ih h)

/-- Association-list lookup fails exactly on keys outside the key list. -/
theorem lookup_eq_none_iff (l : List (String × Debt)) (k : String) :
    l.lookup k = none ↔ k ∉ l.map Prod.fst := by
  induction l with
  | nil => simp [List.lookup]
  | cons hd tl ih =>
    obtain ⟨k', v'⟩ := hd
    by_cases hk : k = k'
    · subst hk
      simp [List.lookup]
    · have hbeq : (k == k') = false := by simpa using hk
      simp [List.lookup, hbeq, ih, hk]

/-- The descending-USD sort is a permutation of its input. -/
theorem sortByUsdDesc_perm (l : List (String × Debt)) :
    (sortByUsdDesc l).Perm l :=
  List.perm_insertionSort _ l

/-- Membership is unchanged by the descending-USD sort. -/
theorem mem_sortByUsdDesc {l : List (String × Debt)} {x : String × Debt} :
    x ∈ sortByUsdDesc l ↔ x ∈ l :=
  (sortByUsdDesc_perm l).mem_iff

/-- The length of a `filterMap` equals the length of the `filter` keeping
exactly the elements the function maps to `some`. -/
theorem length_filterMap_eq {α β : Type} (f : α → Option β) (l : List α) :
    (l.filterMap f).length = (l.filter (fun a => (f a).isSome)).length := by
  induction l with
  | nil => rfl
  | cons hd tl ih =>
    cases hfa : f hd with
    | none => simp [List.filterMap_cons, List.filter_cons, hfa, ih]
    | some b => simp [List.filterMap_cons, List.filter_cons, hfa, ih]

/-- The diff loop body skips (yields `none` on) exactly the dust entries. -/
theorem diffOfEntry_isNone_eq (e : String × Option Debt × Option Debt) :
    (diffOfEntry e).isNone = isDustEntry e := by
  obtain ⟨n, po, co⟩ := e
  unfold diffOfEntry isDustEntry
  by_cases hc :
      ((match co, po with
          | some d, _ => d.price
          | none, some d => d.price
          | none, none => 0) *
         (match po with | some d => d.tokens | none => 0) < MIN_AMOUNT ∧
        (match co, po with
          | some d, _ => d.price
          | none, some d => d.price
          | none, none => 0) *
         (match co with | some d => d.tokens | none => 0) < MIN_AMOUNT) ∨
      ((match po with | some d => d.asset_usd | none => 0) < MIN_AMOUNT ∧
        (match co with | some d => d.asset_usd | none => 0) < MIN_AMOUNT)
  · simp only [if_pos hc, Option.isNone_none, decide_eq_true hc]
  · simp only [if_neg hc, Option.isNone_some, decide_eq_false hc]

/-- `dict[k] = v` on a fresh key appends the pair. -/
theorem dictInsert_fresh (l : List (String × Debt)) (k : String) (v : Debt)
    (h : k ∉ l.map Prod.fst) : dictInsert l k v = l ++ [(k, v)] := by
  have hany : (l.any fun kv => kv.1 == k) = false := by
    rw [Bool.eq_false_iff]
    intro hcontra
    obtain ⟨kv, hkv, hbeq⟩ := List.any_eq_true.mp hcontra
    exact h (by
      have : kv.1 = k := by simpa using hbeq
      exact this ▸ List.mem_map_of_mem Prod.fst hkv)
  unfold dictInsert
  rw [hany]
  simp

/-- Total debt of a concatenation splits as a sum. -/
theorem compute_total_append (l₁ l₂ : List (String × Debt)) :
    _compute_total_debt (l₁ ++ l₂) = _compute_total_debt l₁ + _compute_total_debt l₂ := by
  unfold _compute_total_debt
  rw [List.map_append, List.sum_append]

end HelperLemmas

section ClassifierLemmas

open DebtLib

/-- When neither aggregate absolute rule fires, the classifier is the
per-key if-chain over the four or-accumulated flags. -/
theorem alert_message_perkey (prev curr : DebtPosition) (ign : List String)
    (hlo : _get_debt_change prev curr < LARGE_OVERALL_CHANGE)
    (hhi : -LARGE_OVERALL_CHANGE < _get_debt_change prev curr) :
    _get_alert_message (some prev) curr ign =
      (if (consideredDiffs prev curr ign).any
            (fun d => decide (LARGE_INDIVIDUAL_CHANGE ≤ d.change_usd)) &&
          !(consideredDiffs prev curr ign).any
            (fun d => decide (d.change_usd ≤ -LARGE_INDIVIDUAL_CHANGE)) then
        (true, _individual_increase_message)
      else if (consideredDiffs prev curr ign).any
            (fun d => decide (d.change_usd ≤ -LARGE_INDIVIDUAL_CHANGE)) &&
          !(consideredDiffs prev curr ign).any
            (fun d => decide (LARGE_INDIVIDUAL_CHANGE ≤ d.change_usd)) then
        (true, _individual_reduction_message)
      else if (consideredDiffs prev curr ign).any
            (fun d => decide (LARGE_INDIVIDUAL_CHANGE ≤ d.change_usd)) &&
          (consideredDiffs prev curr ign).any
            (fun d => decide (d.change_usd ≤ -LARGE_INDIVIDUAL_CHANGE)) then
        (true, _churn_message)
      else if (consideredDiffs prev curr ign).any
            (fun d => decide (LARGE_LTV_CHANGE ≤ d.curr_ltv - d.prev_ltv)) &&
          !(consideredDiffs prev curr ign).any
            (fun d => decide (d.curr_ltv - d.prev_ltv ≤ -LARGE_LTV_CHANGE)) then
        (true, _ltv_increase_message)
      else if (consideredDiffs prev curr ign).any
            (fun d => decide (d.curr_ltv - d.prev_ltv ≤ -LARGE_LTV_CHANGE)) &&
          !(consideredDiffs prev curr ign).any
            (fun d => decide (LARGE_LTV_CHANGE ≤ d.curr_ltv - d.prev_ltv)) then
        (true, _ltv_decrease_message)
      else if (consideredDiffs prev curr ign).any
            (fun d => decide (LARGE_LTV_CHANGE ≤ d.curr_ltv - d.prev_ltv)) &&
          (consideredDiffs prev curr ign).any
            (fun d => decide (d.curr_ltv - d.prev_ltv ≤ -LARGE_LTV_CHANGE)) then
        (true, _ltv_churn_message)
      else (false, "")) := by
  simp only [_get_alert_message]
  rw [if_neg (not_le.mpr hlo), if_neg (not_le.mpr hhi)]

end ClassifierLemmas

/-- Claim C3, counterexample to the claim as stated: on the `debt_lib`
classifier there is no relative-change rule at all.  Here the aggregate
relative change is +50% (far above the 0.05 relative threshold of the
`debt.py` variant), the absolute rule did not fire, and yet the classifier
does not fire. -/
theorem c3_counterexample :
    (1/20 : ℚ) ≤ |DebtLib._get_relative_debt_change Examples.prevC3 Examples.currC3| ∧
    DebtLib._get_alert_message (some Examples.prevC3) Examples.currC3 [] = (false, "") := by
  constructor
  · decide
  · decide

/-- Claim C3, amended: the aggregate relative-change rule exists only in the
`debt.py` variant of the classifier: there, when a previous snapshot exists
and the aggregate relative change (change over previous total plus epsilon)
has absolute value at least the 0.05 threshold, the classifier fires — with
one sign-independent category, and with no absolute-threshold rule before
it.  The `debt_lib` classifier has no relative-change rule. -/
theorem c3_amended (prev curr : DebtPy.DebtPosition)
    (h : DebtPy.LARGE_CHANGE_THRESHOLD ≤
      |(curr.total_debt - prev.total_debt) / (prev.total_debt + DebtLib.eps)|) :
    DebtPy.get_alert_message (some prev) curr = some "ALERT: Significant change in debt." := by
  simp only [DebtPy.get_alert_message]
  rw [if_pos h]

/-- Claim C3, witness: the amended rule fires on a +100% relative change
(total debt 100 → 200 USD). -/
theorem c3_amended_witness :
    DebtPy.get_alert_message (some Examples.prevPyC3) Examples.currPyC3 =
      some "ALERT: Significant change in debt." :=
  c3_amended Examples.prevPyC3 Examples.currPyC3 (by decide)

/-- Claim C7: if the fetch step of `update()` fails (an error surfaces from
`fetch_url` after the retry cap), `update()` propagates that failure and the
tracker state is unchanged: `last_update_time`, `last_alert_time` and
`last_message` keep their prior values and no row is appended to the
persistence store. -/
theorem c7_update_unchanged_on_fetch_failure
    (name subscribe_command : String) (ignorable_debts : List String)
    (st : DebtLib.TrackerState) (store : List DebtLib.CsvRow)
    (outcomes : List Utils.AttemptOutcome) (e : String)
    (parse : String → DebtLib.DebtPosition)
    (h : Utils.fetch_url outcomes 0 = Except.error e) :
    DebtLib.update name subscribe_command ignorable_debts st store
      ((Utils.fetch_url outcomes 0).map parse) = (st, store, Except.error e) := by
  rw [h]
  rfl

/-- Claim C7, witness: three raising attempts exhaust the retry cap and the
update returns the prior state, the prior store, and the error. -/
theorem c7_witness :
    DebtLib.update "n" "cmd" [] Examples.stC7 []
      ((Utils.fetch_url Examples.outcomesC7 0).map Examples.parseC7) =
      (Examples.stC7, [], Except.error "boom") :=
  c7_update_unchanged_on_fetch_failure "n" "cmd" [] Examples.stC7 []
    Examples.outcomesC7 "boom" Examples.parseC7 (by rfl)

/-- Claim C8, counterexample to the claim as stated: a snapshot whose
timestamp carries a microsecond part does not round-trip through the store:
the storage format `'%Y-%m-%d %H:%M:%S%z'` renders whole seconds only, so
write-then-readLast returns a different snapshot. -/
theorem c8_counterexample :
    DebtLib._query_prev_debts (DebtLib._write_debts Examples.pC8 []) ≠
      some Examples.pC8 := by
  decide

/-- Claim C8, amended: writing a snapshot and reading it back via readLast
yields a snapshot equal to the original in every field — entity id, tag,
aggregate totals and the full positions mapping are carried exactly — except
that the timestamp is truncated to whole seconds (so the round trip is exact
precisely when the original timestamp has no sub-second part). -/
theorem c8_amended (store : List DebtLib.CsvRow) (p : DebtLib.DebtPosition) :
    DebtLib._query_prev_debts (DebtLib._write_debts p store) =
      some { p with time := ⟨p.time.sec, 0⟩ } ∧
    (p.time.usec = 0 →
      DebtLib._query_prev_debts (DebtLib._write_debts p store) = some p) := by
  have h1 : DebtLib._query_prev_debts (DebtLib._write_debts p store) =
      some { p with time := ⟨p.time.sec, 0⟩ } := by
    unfold DebtLib._query_prev_debts DebtLib._write_debts
    rw [List.getLast?_concat]
    rfl
  refine ⟨h1, fun h0 => ?_⟩
  rw [h1]
  obtain ⟨⟨sec, usec⟩, address, tag, ta, td, ind⟩ := p
  simp only at h0
  subst h0
  rfl

/-- Claim C8, witness: a whole-second snapshot round-trips exactly. -/
theorem c8_amended_witness :
    DebtLib._query_prev_debts (DebtLib._write_debts Examples.pC8w []) =
      some Examples.pC8w :=
  (c8_amended [] Examples.pC8w).2 rfl

/-- Claim C10: a position whose collateral value is below the 100 USD floor
on both sides is skipped by the diff loop (and hence never reaches alert
evaluation or the notable-changes listing), even when its debt value exceeds
the floor; and the full report skips any position whose debt USD value or
collateral value is below the floor. -/
theorem c10_dust_floors :
    (∀ (k : String) (po co : Option DebtLib.Debt),
      (match po with | some d => d.asset_usd | none => 0) < DebtLib.MIN_AMOUNT →
      (match co with | some d => d.asset_usd | none => 0) < DebtLib.MIN_AMOUNT →
      DebtLib.diffOfEntry (k, po, co) = none) ∧
    (∀ (debts : DebtLib.DebtPosition) (kv : String × DebtLib.Debt),
      kv ∈ debts.individual_debts →
      kv.2.usd < DebtLib.MIN_AMOUNT ∨ kv.2.asset_usd < DebtLib.MIN_AMOUNT →
      kv ∉ DebtLib._print_debts_entries debts) := by
  constructor
  · intro k po co h1 h2
    simp only [DebtLib.diffOfEntry]
    rw [if_pos (Or.inr ⟨h1, h2⟩)]
  · intro debts kv _ hfloor hcontra
    have hpred := (List.mem_filter.mp hcontra).2
    simp only [Bool.not_eq_true', Bool.or_eq_false_iff, decide_eq_false_iff_not] at hpred
    rcases hfloor with h | h
    · exact hpred.1 h
    · exact hpred.2 h

/-- Claim C10, witness: a position with 100,000 USD of debt but 50 USD of
collateral on both sides yields no diff entry, and is skipped by the full
report. -/
theorem c10_dust_floors_witness :
    DebtLib.diffOfEntry ("K", some Examples.dustDebtC10, some Examples.dustDebtC10) = none ∧
    ("K", Examples.dustDebtC10) ∉ DebtLib._print_debts_entries Examples.dpC10 :=
  ⟨c10_dust_floors.1 "K" (some Examples.dustDebtC10) (some Examples.dustDebtC10)
      (by decide) (by decide),
    c10_dust_floors.2 Examples.dpC10 ("K", Examples.dustDebtC10)
      (by decide) (Or.inr (by decide))⟩

/-- Claim C4, counterexample to the claim as stated: the spec's scenario — two
keys changing by +40,000 and −45,000 USD (aggregate −5,000) against a 30,000
per-key threshold — does not yield the churn category: the code's per-key
threshold is the fixed constant 100,000 USD, so the classifier reports no
alert at all on this input. -/
theorem c4_counterexample :
    (DebtLib._iterate_individual_diffs Examples.prevC4x Examples.currC4x).map
        DebtLib.DebtDiff.change_usd = [40000, -45000] ∧
    DebtLib._get_alert_message (some Examples.prevC4x) Examples.currC4x [] = (false, "") := by
  constructor
  · decide
  · decide

/-- Claim C4, amended: with the code's per-key threshold of 100,000 USD (a
constant, not injectable configuration), when the aggregate rules do not
fire: if among non-ignored diff entries some entry's USD change is at or
above the threshold and some entry's is at or below its negation, the
classifier fires with the churn category; if only the increase direction
crosses, it fires with the increase category; if only the decrease
direction crosses, with the reduction category.  (The spec's scenario holds
scaled to the real threshold: +140,000 and −145,000 yield churn.) -/
theorem c4_amended (prev curr : DebtLib.DebtPosition) (ign : List String)
    (hlo : DebtLib._get_debt_change prev curr < DebtLib.LARGE_OVERALL_CHANGE)
    (hhi : -DebtLib.LARGE_OVERALL_CHANGE < DebtLib._get_debt_change prev curr) :
    ((∃ d ∈ DebtLib.consideredDiffs prev curr ign,
        DebtLib.LARGE_INDIVIDUAL_CHANGE ≤ d.change_usd) ∧
     (∃ d ∈ DebtLib.consideredDiffs prev curr ign,
        d.change_usd ≤ -DebtLib.LARGE_INDIVIDUAL_CHANGE) →
      DebtLib._get_alert_message (some prev) curr ign = (true, DebtLib._churn_message)) ∧
    ((∃ d ∈ DebtLib.consideredDiffs prev curr ign,
        DebtLib.LARGE_INDIVIDUAL_CHANGE ≤ d.change_usd) ∧
     ¬(∃ d ∈ DebtLib.consideredDiffs prev curr ign,
        d.change_usd ≤ -DebtLib.LARGE_INDIVIDUAL_CHANGE) →
      DebtLib._get_alert_message (some prev) curr ign =
        (true, DebtLib._individual_increase_message)) ∧
    ((∃ d ∈ DebtLib.consideredDiffs prev curr ign,
        d.change_usd ≤ -DebtLib.LARGE_INDIVIDUAL_CHANGE) ∧
     ¬(∃ d ∈ DebtLib.consideredDiffs prev curr ign,
        DebtLib.LARGE_INDIVIDUAL_CHANGE ≤ d.change_usd) →
      DebtLib._get_alert_message (some prev) curr ign =
        (true, DebtLib._individual_reduction_message)) := by
  rw [alert_message_perkey prev curr ign hlo hhi]
  refine ⟨?_, ?_, ?_⟩
  · rintro ⟨⟨d1, h1, hp1⟩, ⟨d2, h2, hp2⟩⟩
    have hA : ((DebtLib.consideredDiffs prev curr ign).any
        (fun d => decide (DebtLib.LARGE_INDIVIDUAL_CHANGE ≤ d.change_usd))) = true :=
      List.any_eq_true.mpr ⟨d1, h1, decide_eq_true hp1⟩
    have hB : ((DebtLib.consideredDiffs prev curr ign).any
        (fun d => decide (d.change_usd ≤ -DebtLib.LARGE_INDIVIDUAL_CHANGE))) = true :=
      List.any_eq_true.mpr ⟨d2, h2, decide_eq_true hp2⟩
    rw [hA, hB]
    simp
  · rintro ⟨⟨d1, h1, hp1⟩, hno⟩
    have hA : ((DebtLib.consideredDiffs prev curr ign).any
        (fun d => decide (DebtLib.LARGE_INDIVIDUAL_CHANGE ≤ d.change_usd))) = true :=
      List.any_eq_true.mpr ⟨d1, h1, decide_eq_true hp1⟩
    have hB : ((DebtLib.consideredDiffs prev curr ign).any
        (fun d => decide (d.change_usd ≤ -DebtLib.LARGE_INDIVIDUAL_CHANGE))) = false := by
      rw [Bool.eq_false_iff]
      intro hc
      obtain ⟨d, hd, hpd⟩ := List.any_eq_true.mp hc
      exact hno ⟨d, hd, of_decide_eq_true hpd⟩
    rw [hA, hB]
    simp
  · rintro ⟨⟨d2, h2, hp2⟩, hno⟩
    have hB : ((DebtLib.consideredDiffs prev curr ign).any
        (fun d => decide (d.change_usd ≤ -DebtLib.LARGE_INDIVIDUAL_CHANGE))) = true :=
      List.any_eq_true.mpr ⟨d2, h2, decide_eq_true hp2⟩
    have hA : ((DebtLib.consideredDiffs prev curr ign).any
        (fun d => decide (DebtLib.LARGE_INDIVIDUAL_CHANGE ≤ d.change_usd))) = false := by
      rw [Bool.eq_false_iff]
      intro hc
      obtain ⟨d, hd, hpd⟩ := List.any_eq_true.mp hc
      exact hno ⟨d, hd, of_decide_eq_true hpd⟩
    rw [hA, hB]
    simp

/-- Claim C4, witness: keys changing by +140,000 and −145,000 USD (aggregate
−5,000) yield the churn category. -/
theorem c4_amended_witness :
    DebtLib._get_alert_message (some Examples.prevC4) Examples.currC4 [] =
      (true, DebtLib._churn_message) :=
  (c4_amended Examples.prevC4 Examples.currC4 [] (by decide) (by decide)).1
    ⟨⟨Examples.dC4A, by decide, by decide⟩, ⟨Examples.dC4B, by decide, by decide⟩⟩

/-- Claim C5, counterexample to the claim as stated: exclusion is keyed on
the diff entry's display name, not on the position key.  The ignore-set
holds the full position key "P (eth), supply ETH, borrow USDC"; the entry's
display name is the truncation "P (eth), supply ETH", which is not in the
set, so a +200,000 USD change on that very key fires the classifier by
itself. -/
theorem c5_counterexample :
    DebtLib._get_alert_message (some Examples.prevC5) Examples.currC5 [Examples.keyC5] =
      (true, DebtLib._individual_increase_message) := by
  decide

/-- Claim C5, amended: per-key exclusion is by display name (the position
key truncated before ", borrow"): every diff entry whose display name is in
the ignore-set is excluded from per-key alert evaluation, and no entry whose
display name is outside the set is excluded — so ignored entries never by
themselves cause `fires = true`: when the aggregate rules do not fire and
every non-ignored entry stays below the per-key USD and LTV thresholds,
the classifier reports no alert whatever the ignored entries' changes are.
(A full position key placed in the set matches no display name and excludes
nothing.) -/
theorem c5_amended (prev curr : DebtLib.DebtPosition) (ign : List String)
    (hlo : DebtLib._get_debt_change prev curr < DebtLib.LARGE_OVERALL_CHANGE)
    (hhi : -DebtLib.LARGE_OVERALL_CHANGE < DebtLib._get_debt_change prev curr)
    (hquiet : ∀ d ∈ DebtLib.consideredDiffs prev curr ign,
      |d.change_usd| < DebtLib.LARGE_INDIVIDUAL_CHANGE ∧
      |d.curr_ltv - d.prev_ltv| < DebtLib.LARGE_LTV_CHANGE) :
    DebtLib._get_alert_message (some prev) curr ign = (false, "") := by
  rw [alert_message_perkey prev curr ign hlo hhi]
  have h1 : ((DebtLib.consideredDiffs prev curr ign).any
      (fun d => decide (DebtLib.LARGE_INDIVIDUAL_CHANGE ≤ d.change_usd))) = false := by
    rw [Bool.eq_false_iff]
    intro hc
    obtain ⟨d, hd, hpd⟩ := List.any_eq_true.mp hc
    have habs := abs_lt.mp (hquiet d hd).1
    exact absurd (of_decide_eq_true hpd) (not_le.mpr habs.2)
  have h2 : ((DebtLib.consideredDiffs prev curr ign).any
      (fun d => decide (d.change_usd ≤ -DebtLib.LARGE_INDIVIDUAL_CHANGE))) = false := by
    rw [Bool.eq_false_iff]
    intro hc
    obtain ⟨d, hd, hpd⟩ := List.any_eq_true.mp hc
    have habs := abs_lt.mp (hquiet d hd).1
    exact absurd (of_decide_eq_true hpd) (not_le.mpr (neg_lt.mp (neg_lt_of_neg_lt habs.1)))
  have h3 : ((DebtLib.consideredDiffs prev curr ign).any
      (fun d => decide (DebtLib.LARGE_LTV_CHANGE ≤ d.curr_ltv - d.prev_ltv))) = false := by
    rw [Bool.eq_false_iff]
    intro hc
    obtain ⟨d, hd, hpd⟩ := List.any_eq_true.mp hc
    have habs := abs_lt.mp (hquiet d hd).2
    exact absurd (of_decide_eq_true hpd) (not_le.mpr habs.2)
  have h4 : ((DebtLib.consideredDiffs prev curr ign).any
      (fun d => decide (d.curr_ltv - d.prev_ltv ≤ -DebtLib.LARGE_LTV_CHANGE))) = false := by
    rw [Bool.eq_false_iff]
    intro hc
    obtain ⟨d, hd, hpd⟩ := List.any_eq_true.mp hc
    have habs := abs_lt.mp (hquiet d hd).2
    exact absurd (of_decide_eq_true hpd) (not_le.mpr (neg_lt.mp (neg_lt_of_neg_lt habs.1)))
  rw [h1, h2, h3, h4]
  simp

/-- Claim C5, witness: the single diff entry's display name is in the
ignore-set, so its +200,000 USD change causes no alert. -/
theorem c5_amended_witness :
    DebtLib._get_alert_message (some Examples.prevC5) Examples.currC5 Examples.ignC5 =
      (false, "") :=
  c5_amended Examples.prevC5 Examples.currC5 Examples.ignC5
    (by decide) (by decide) (by decide)

/-- Claim C9: in per-key alert evaluation the USD-change rules take
precedence over the LTV rules: when the aggregate rules do not fire, if any
non-ignored diff entry's USD change crosses the per-key threshold in either
direction, the classifier fires and its category is one of the three
USD-change categories — never an LTV category. -/
theorem c9_usd_rules_precede_ltv (prev curr : DebtLib.DebtPosition) (ign : List String)
    (hlo : DebtLib._get_debt_change prev curr < DebtLib.LARGE_OVERALL_CHANGE)
    (hhi : -DebtLib.LARGE_OVERALL_CHANGE < DebtLib._get_debt_change prev curr)
    (hcross : ∃ d ∈ DebtLib.consideredDiffs prev curr ign,
      DebtLib.LARGE_INDIVIDUAL_CHANGE ≤ d.change_usd ∨
      d.change_usd ≤ -DebtLib.LARGE_INDIVIDUAL_CHANGE) :
    (DebtLib._get_alert_message (some prev) curr ign).1 = true ∧
    ((DebtLib._get_alert_message (some prev) curr ign).2 =
        DebtLib._individual_increase_message ∨
     (DebtLib._get_alert_message (some prev) curr ign).2 =
        DebtLib._individual_reduction_message ∨
     (DebtLib._get_alert_message (some prev) curr ign).2 = DebtLib._churn_message) ∧
    (DebtLib._get_alert_message (some prev) curr ign).2 ≠ DebtLib._ltv_increase_message ∧
    (DebtLib._get_alert_message (some prev) curr ign).2 ≠ DebtLib._ltv_decrease_message ∧
    (DebtLib._get_alert_message (some prev) curr ign).2 ≠ DebtLib._ltv_churn_message := by
  rw [alert_message_perkey prev curr ign hlo hhi]
  obtain ⟨d, hd, hp⟩ := hcross
  cases hA : ((DebtLib.consideredDiffs prev curr ign).any
      (fun d => decide (DebtLib.LARGE_INDIVIDUAL_CHANGE ≤ d.change_usd))) with
  | true =>
    cases hB : ((DebtLib.consideredDiffs prev curr ign).any
        (fun d => decide (d.change_usd ≤ -DebtLib.LARGE_INDIVIDUAL_CHANGE))) with
    | true =>
      simp [DebtLib._individual_increase_message, DebtLib._individual_reduction_message,
        DebtLib._churn_message, DebtLib._ltv_increase_message,
        DebtLib._ltv_decrease_message, DebtLib._ltv_churn_message]
    | false =>
      simp [DebtLib._individual_increase_message, DebtLib._individual_reduction_message,
        DebtLib._churn_message, DebtLib._ltv_increase_message,
        DebtLib._ltv_decrease_message, DebtLib._ltv_churn_message]
  | false =>
    have hB : ((DebtLib.consideredDiffs prev curr ign).any
        (fun d => decide (d.change_usd ≤ -DebtLib.LARGE_INDIVIDUAL_CHANGE))) = true := by
      rcases hp with hp | hp
      · exact absurd (List.any_eq_true.mpr ⟨d, hd, decide_eq_true hp⟩)
          (by rw [hA]; exact Bool.false_ne_true)
      · exact List.any_eq_true.mpr ⟨d, hd, decide_eq_true hp⟩
    rw [hB]
    simp [DebtLib._individual_increase_message, DebtLib._individual_reduction_message,
      DebtLib._churn_message, DebtLib._ltv_increase_message,
      DebtLib._ltv_decrease_message, DebtLib._ltv_churn_message]

/-- Claim C9, witness: a single +200,000 USD change fires with the
increase category (a USD category, not an LTV one). -/
theorem c9_witness :
    (DebtLib._get_alert_message (some Examples.prevC9) Examples.currC9 []).1 = true ∧
    ((DebtLib._get_alert_message (some Examples.prevC9) Examples.currC9 []).2 =
        DebtLib._individual_increase_message ∨
     (DebtLib._get_alert_message (some Examples.prevC9) Examples.currC9 []).2 =
        DebtLib._individual_reduction_message ∨
     (DebtLib._get_alert_message (some Examples.prevC9) Examples.currC9 []).2 =
        DebtLib._churn_message) ∧
    (DebtLib._get_alert_message (some Examples.prevC9) Examples.currC9 []).2 ≠
      DebtLib._ltv_increase_message ∧
    (DebtLib._get_alert_message (some Examples.prevC9) Examples.currC9 []).2 ≠
      DebtLib._ltv_decrease_message ∧
    (DebtLib._get_alert_message (some Examples.prevC9) Examples.currC9 []).2 ≠
      DebtLib._ltv_churn_message :=
  c9_usd_rules_precede_ltv Examples.prevC9 Examples.currC9 []
    (by decide) (by decide) ⟨Examples.dC9, by decide, Or.inl (by decide)⟩

/-- Claim C1, counterexample to the claim as stated: the diff loop recomputes
both sides at the current price, so when the price moved between snapshots
the delta is not `current USD − previous USD`.  Key "K" goes from 100 tokens
at price 1 (usd 100) to 150 tokens at price 2 (usd 300): the code yields
delta 2·150 − 2·100 = 100, but current − previous = 200. -/
theorem c1_counterexample :
    DebtLib._iterate_individual_diffs Examples.prevC1 Examples.currC1 = [Examples.dC1] ∧
    Examples.dC1.change_usd ≠ Examples.cvC1.usd - Examples.pvC1.usd := by
  constructor
  · decide
  · decide

/-- Claim C1, amended: for a key present in both snapshots whose entry passes
the minimum-amount floor, the yielded delta is the current price times the
token-count change (both sides are repriced at the current price before
subtracting).  For a key present only in the previous snapshot, the price
falls back to the previous price, and the delta is minus the previous
price times the previous token count — which equals minus the previous USD
value whenever that entry's stored `usd` is its `price · tokens` (as every
fetched snapshot stores it). -/
theorem c1_amended (prev curr : DebtLib.DebtPosition) (k : String) :
    (∀ pv cv : DebtLib.Debt,
      prev.individual_debts.lookup k = some pv →
      curr.individual_debts.lookup k = some cv →
      (k, some pv, some cv) ∈ DebtLib._iterate_individual_debts prev curr ∧
      ∀ d : DebtLib.DebtDiff, DebtLib.diffOfEntry (k, some pv, some cv) = some d →
        d.change_usd = cv.price * cv.tokens - cv.price * pv.tokens) ∧
    (∀ pv : DebtLib.Debt,
      prev.individual_debts.lookup k = some pv →
      curr.individual_debts.lookup k = none →
      (k, some pv, none) ∈ DebtLib._iterate_individual_debts prev curr ∧
      ∀ d : DebtLib.DebtDiff, DebtLib.diffOfEntry (k, some pv, none) = some d →
        d.change_usd = -(pv.price * pv.tokens) ∧
        (pv.usd = pv.price * pv.tokens → d.change_usd = -pv.usd)) := by
  constructor
  · intro pv cv hp hc
    constructor
    · have hm : (k, cv) ∈ DebtLib.sortByUsdDesc curr.individual_debts :=
        mem_sortByUsdDesc.mpr (lookup_mem hc)
      have hmap := List.mem_map_of_mem
        (fun kv : String × DebtLib.Debt =>
          (kv.1, prev.individual_debts.lookup kv.1, some kv.2)) hm
      rw [DebtLib._iterate_individual_debts]
      apply List.mem_append_left
      simpa [hp] using hmap
    · intro d hd
      simp only [DebtLib.diffOfEntry] at hd
      split at hd
      · exact absurd hd (by simp)
      · rw [← Option.some.injEq] at hd
        cases hd
        rfl
  · intro pv hp hc
    constructor
    · have hm : (k, pv) ∈ DebtLib.sortByUsdDesc prev.individual_debts :=
        mem_sortByUsdDesc.mpr (lookup_mem hp)
      have hfil : (k, pv) ∈ (DebtLib.sortByUsdDesc prev.individual_debts).filter
          (fun kv => (curr.individual_debts.lookup kv.1).isNone) := by
        rw [List.mem_filter]
        exact ⟨hm, by simp [hc]⟩
      have hmap := List.mem_map_of_mem
        (fun kv : String × DebtLib.Debt =>
          ((kv.1, some kv.2, none) : String × Option DebtLib.Debt × Option DebtLib.Debt)) hfil
      rw [DebtLib._iterate_individual_debts]
      apply List.mem_append_right
      simpa using hmap
    · intro d hd
      simp only [DebtLib.diffOfEntry] at hd
      split at hd
      · exact absurd hd (by simp)
      · rw [← Option.some.injEq] at hd
        cases hd
        refine ⟨by simp, fun husd => by simp [husd]⟩

/-- Claim C1, witness: the amended computation on the concrete pair of
snapshots of the counterexample: the entry for "K" is yielded with both
values and its delta is the current price times the token change. -/
theorem c1_amended_witness :
    ("K", some Examples.pvC1, some Examples.cvC1) ∈
      DebtLib._iterate_individual_debts Examples.prevC1 Examples.currC1 ∧
    ∀ d : DebtLib.DebtDiff,
      DebtLib.diffOfEntry ("K", some Examples.pvC1, some Examples.cvC1) = some d →
        d.change_usd = Examples.cvC1.price * Examples.cvC1.tokens -
          Examples.cvC1.price * Examples.pvC1.tokens :=
  (c1_amended Examples.prevC1 Examples.currC1 "K").1 Examples.pvC1 Examples.cvC1
    (by decide) (by decide)

/-- Claim C2, counterexample to the claim as stated: a key that is dust on
both sides (recomputed USD 50 < 100) is in the union of the key sets but
yields no diff entry at all — the diff computation drops it. -/
theorem c2_counterexample :
    "K" ∈ DebtLib.keysOf Examples.prevC2 ∧
    DebtLib._iterate_individual_diffs Examples.prevC2 Examples.prevC2 = [] := by
  constructor
  · decide
  · decide

/-- Claim C2, amended: the merged per-key enumeration
(`_iterate_individual_debts`) yields exactly the union of the two key sets,
each key exactly once; the diff computation (`_iterate_individual_diffs`)
yields exactly one entry per union key that passes the minimum-amount floor
and drops the keys that fail it (the loop body skips precisely the dust
entries). -/
theorem c2_amended (prev curr : DebtLib.DebtPosition)
    (hp : (DebtLib.keysOf prev).Nodup) (hc : (DebtLib.keysOf curr).Nodup) :
    (∀ k : String,
      k ∈ (DebtLib._iterate_individual_debts prev curr).map Prod.fst ↔
        (k ∈ DebtLib.keysOf curr ∨ k ∈ DebtLib.keysOf prev)) ∧
    ((DebtLib._iterate_individual_debts prev curr).map Prod.fst).Nodup ∧
    (∀ e : String × Option DebtLib.Debt × Option DebtLib.Debt,
      (DebtLib.diffOfEntry e).isNone = DebtLib.isDustEntry e) ∧
    (DebtLib._iterate_individual_diffs prev curr).length =
      ((DebtLib._iterate_individual_debts prev curr).filter
        (fun e => !DebtLib.isDustEntry e)).length := by
  have hkeys : (DebtLib._iterate_individual_debts prev curr).map Prod.fst =
      (DebtLib.sortByUsdDesc curr.individual_debts).map Prod.fst ++
      ((DebtLib.sortByUsdDesc prev.individual_debts).filter
        (fun kv => (curr.individual_debts.lookup kv.1).isNone)).map Prod.fst := by
    simp only [DebtLib._iterate_individual_debts, List.map_append, List.map_map]
    rfl
  have hperm1 : ((DebtLib.sortByUsdDesc curr.individual_debts).map Prod.fst).Perm
      (DebtLib.keysOf curr) := (sortByUsdDesc_perm _).map _
  have hperm2 : ((DebtLib.sortByUsdDesc prev.individual_debts).map Prod.fst).Perm
      (DebtLib.keysOf prev) := (sortByUsdDesc_perm _).map _
  have hmem2 : ∀ k : String,
      k ∈ ((DebtLib.sortByUsdDesc prev.individual_debts).filter
        (fun kv => (curr.individual_debts.lookup kv.1).isNone)).map Prod.fst ↔
      (k ∈ DebtLib.keysOf prev ∧ k ∉ DebtLib.keysOf curr) := by
    intro k
    constructor
    · intro hk
      obtain ⟨kv, hkv, rfl⟩ := List.mem_map.mp hk
      have h1 := List.mem_filter.mp hkv
      have hmemprev : kv ∈ prev.individual_debts := mem_sortByUsdDesc.mp h1.1
      refine ⟨List.mem_map_of_mem _ hmemprev, ?_⟩
      have hnone : curr.individual_debts.lookup kv.1 = none :=
        Option.isNone_iff_eq_none.mp h1.2
      exact (lookup_eq_none_iff _ _).mp hnone
    · rintro ⟨hkp, hkc⟩
      obtain ⟨kv, hkv, rfl⟩ := List.mem_map.mp hkp
      refine List.mem_map_of_mem _ ?_
      rw [List.mem_filter]
      refine ⟨mem_sortByUsdDesc.mpr hkv, ?_⟩
      rw [Option.isNone_iff_eq_none]
      exact (lookup_eq_none_iff _ _).mpr hkc
  refine ⟨?_, ?_, diffOfEntry_isNone_eq, ?_⟩
  · intro k
    rw [hkeys, List.mem_append, hperm1.mem_iff, hmem2]
    constructor
    · rintro (h | ⟨h, _⟩)
      · exact Or.inl h
      · exact Or.inr h
    · rintro (h | h)
      · exact Or.inl h
      · by_cases hcur : k ∈ DebtLib.keysOf curr
        · exact Or.inl hcur
        · exact Or.inr ⟨h, hcur⟩
  · rw [hkeys]
    rw [List.nodup_append]
    refine ⟨hperm1.nodup_iff.mpr hc, ?_, ?_⟩
    · exact (hperm2.nodup_iff.mpr hp).sublist ((List.filter_sublist _).map _)
    · intro a ha1 ha2
      exact ((hmem2 a).mp ha2).2 (hperm1.mem_iff.mp ha1)
  · rw [DebtLib._iterate_individual_diffs, length_filterMap_eq]
    apply congrArg List.length
    apply List.filter_congr
    intro e _
    rw [← diffOfEntry_isNone_eq]
    cases DebtLib.diffOfEntry e <;> rfl

/-- Claim C2, witness: the amended statement on the concrete dust snapshot
(whose single union key is merged once but dropped by the floor). -/
theorem c2_amended_witness :
    (∀ k : String,
      k ∈ (DebtLib._iterate_individual_debts Examples.prevC2 Examples.prevC2).map Prod.fst ↔
        (k ∈ DebtLib.keysOf Examples.prevC2 ∨ k ∈ DebtLib.keysOf Examples.prevC2)) ∧
    ((DebtLib._iterate_individual_debts Examples.prevC2 Examples.prevC2).map Prod.fst).Nodup ∧
    (∀ e : String × Option DebtLib.Debt × Option DebtLib.Debt,
      (DebtLib.diffOfEntry e).isNone = DebtLib.isDustEntry e) ∧
    (DebtLib._iterate_individual_diffs Examples.prevC2 Examples.prevC2).length =
      ((DebtLib._iterate_individual_debts Examples.prevC2 Examples.prevC2).filter
        (fun e => !DebtLib.isDustEntry e)).length :=
  c2_amended Examples.prevC2 Examples.prevC2 (by decide) (by decide)

section ParserLemmas

open DebtLib

/-- The inner borrow-token loop with pairwise-fresh keys appends its entries
in order and touches nothing else. -/
theorem parse_borrow_fold (protocol : Protocol) (item : PortfolioItem) :
    ∀ (bts : List BorrowToken) (acc : DebtPosition),
    (keysOf acc ++ bts.map (fun bt => (btEntry protocol item bt).1)).Nodup →
    bts.foldl (_parse_borrow_token protocol item) acc =
      { acc with individual_debts :=
          acc.individual_debts ++ bts.map (btEntry protocol item) }
  | [], acc, _ => by simp
  | bt :: bts, acc, h => by
    have hk : (btEntry protocol item bt).1 ∉ keysOf acc := by
      intro hmem
      have hdisj := (List.nodup_append.mp h).2.2
      exact hdisj hmem (by simp)
    have hstep : _parse_borrow_token protocol item acc bt =
        { acc with individual_debts :=
            acc.individual_debts ++ [btEntry protocol item bt] } := by
      simp only [_parse_borrow_token, dictInsert_fresh _ _ _ hk]
    have h' : (keysOf { acc with individual_debts :=
        acc.individual_debts ++ [btEntry protocol item bt] } ++
        bts.map (fun bt => (btEntry protocol item bt).1)).Nodup := by
      have hkeys' : keysOf { acc with individual_debts :=
          acc.individual_debts ++ [btEntry protocol item bt] } =
          keysOf acc ++ [(btEntry protocol item bt).1] := by
        simp [keysOf]
      rw [hkeys', List.append_assoc]
      simpa using h
    rw [List.foldl_cons, hstep, parse_borrow_fold protocol item bts _ h']
    simp

/-- One portfolio item's step preserves the total-debt invariant when the
item is internally consistent and its keys are fresh, and extends the key
list by exactly the item's keys. -/
theorem parse_item_step (protocol : Protocol) (item : PortfolioItem) (acc : DebtPosition)
    (hfresh : (keysOf acc ++ itemKeys protocol item).Nodup)
    (hcons : consistencyItem item)
    (hP : acc.total_debt = _compute_total_debt acc.individual_debts) :
    (_parse_protocol_item protocol acc item).total_debt =
      _compute_total_debt (_parse_protocol_item protocol acc item).individual_debts ∧
    keysOf (_parse_protocol_item protocol acc item) =
      keysOf acc ++ itemKeys protocol item := by
  unfold consistencyItem at hcons
  unfold _parse_protocol_item itemKeys
  cases hb : item.borrow_token_list with
  | none =>
    refine ⟨hP, by simp⟩
  | some borrow_tokens =>
    rw [hb] at hcons
    simp only [] at hcons ⊢
    by_cases ha : item.asset_usd_value = 0
    · rw [if_pos ha]
      refine ⟨hP, by simp [ha]⟩
    · rw [if_neg ha]
      have hfresh' : (keysOf acc ++
          borrow_tokens.map (fun bt => (btEntry protocol item bt).1)).Nodup := by
        unfold itemKeys at hfresh
        rw [hb] at hfresh
        simp only [] at hfresh
        rw [if_neg ha] at hfresh
        exact hfresh
      have hdebt : item.debt_usd_value =
          (borrow_tokens.map (fun bt => bt.amount * bt.price)).sum := by
        rcases hcons with hcons | hcons
        · exact absurd hcons ha
        · exact hcons
      rw [parse_borrow_fold protocol item borrow_tokens acc hfresh']
      constructor
      · simp only [compute_total_append, ← hP]
        have hsum : _compute_total_debt (borrow_tokens.map (btEntry protocol item)) =
            (borrow_tokens.map (fun bt => bt.amount * bt.price)).sum := by
          unfold _compute_total_debt
          rw [List.map_map]
          rfl
        rw [hsum, ← hdebt]
      · simp [ha, keysOf, List.map_map, Function.comp]

/-- The item fold preserves the total-debt invariant and emits exactly the
concatenation of the items' key lists. -/
theorem parse_items_fold (protocol : Protocol) :
    ∀ (items : List PortfolioItem) (acc : DebtPosition),
    (keysOf acc ++ (items.map (itemKeys protocol)).flatten).Nodup →
    (∀ item ∈ items, consistencyItem item) →
    acc.total_debt = _compute_total_debt acc.individual_debts →
    (items.foldl (_parse_protocol_item protocol) acc).total_debt =
      _compute_total_debt
        (items.foldl (_parse_protocol_item protocol) acc).individual_debts ∧
    keysOf (items.foldl (_parse_protocol_item protocol) acc) =
      keysOf acc ++ (items.map (itemKeys protocol)).flatten
  | [], acc, _, _, hP => ⟨hP, by simp⟩
  | item :: items, acc, hfresh, hcons, hP => by
    have hfresh1 : (keysOf acc ++ itemKeys protocol item).Nodup := by
      refine List.Nodup.sublist ?_ hfresh
      simp only [List.map_cons, List.flatten_cons, ← List.append_assoc]
      exact List.sublist_append_left _ _
    obtain ⟨hP1, hkeys1⟩ :=
      parse_item_step protocol item acc hfresh1 (hcons item (by simp)) hP
    have hfresh' : (keysOf (_parse_protocol_item protocol acc item) ++
        (items.map (itemKeys protocol)).flatten).Nodup := by
      rw [hkeys1, List.append_assoc]
      simpa [List.append_assoc] using hfresh
    obtain ⟨hPn, hkeysn⟩ := parse_items_fold protocol items
      (_parse_protocol_item protocol acc item) hfresh'
      (fun i hi => hcons i (by simp [hi])) hP1
    rw [List.foldl_cons]
    refine ⟨hPn, ?_⟩
    rw [hkeysn, hkeys1]
    simp [List.append_assoc]

/-- The protocol fold preserves the total-debt invariant and emits exactly
the emitted-key list. -/
theorem parse_protocols_fold :
    ∀ (protocols : List Protocol) (acc : DebtPosition),
    (keysOf acc ++ emittedKeys protocols).Nodup →
    (∀ p ∈ protocols, ∀ item ∈ p.portfolio_item_list, consistencyItem item) →
    acc.total_debt = _compute_total_debt acc.individual_debts →
    (protocols.foldl (fun a p => _parse_protocol_balance p a) acc).total_debt =
      _compute_total_debt
        (protocols.foldl (fun a p => _parse_protocol_balance p a) acc).individual_debts ∧
    keysOf (protocols.foldl (fun a p => _parse_protocol_balance p a) acc) =
      keysOf acc ++ emittedKeys protocols
  | [], acc, _, _, hP => ⟨hP, by simp [emittedKeys]⟩
  | p :: protocols, acc, hfresh, hcons, hP => by
    have hfresh1 : (keysOf acc ++ protocolKeys p).Nodup := by
      refine List.Nodup.sublist ?_ hfresh
      simp only [emittedKeys, List.map_cons, List.flatten_cons, ← List.append_assoc]
      exact List.sublist_append_left _ _
    obtain ⟨hP1, hkeys1⟩ := parse_items_fold p p.portfolio_item_list acc
      (by simpa [protocolKeys] using hfresh1) (hcons p (by simp)) hP
    have hkeys1' : keysOf (_parse_protocol_balance p acc) = keysOf acc ++ protocolKeys p := by
      unfold _parse_protocol_balance protocolKeys
      exact hkeys1
    have hfresh' : (keysOf (_parse_protocol_balance p acc) ++
        emittedKeys protocols).Nodup := by
      rw [hkeys1', List.append_assoc]
      simpa [emittedKeys, List.append_assoc] using hfresh
    obtain ⟨hPn, hkeysn⟩ := parse_protocols_fold protocols
      (_parse_protocol_balance p acc) hfresh'
      (fun q hq => hcons q (by simp [hq]))
      (by unfold _parse_protocol_balance; exact hP1)
    rw [List.foldl_cons]
    refine ⟨hPn, ?_⟩
    rw [hkeysn, hkeys1']
    simp [emittedKeys, List.append_assoc]

end ParserLemmas

/-- Claim C6, counterexample to the claim as stated: the parser sums the
API's per-item `debt_usd_value` into the aggregate total but stores each
borrow token's `amount · price` as the per-key USD value, and nothing forces
those to agree.  On a payload whose item reports `debt_usd_value = 1000`
with a single borrow token worth 900, the fetched snapshot has total debt
1000 but per-key USD values summing to 900. -/
theorem c6_counterexample :
    (DebtLib._query_new_debts_debank [Examples.protoC6] ⟨0, 0⟩ "a" "t").total_debt ≠
      DebtLib._compute_total_debt
        (DebtLib._query_new_debts_debank [Examples.protoC6] ⟨0, 0⟩ "a" "t").individual_debts := by
  decide

/-- Claim C6, amended: for every snapshot produced by the fetch parser, if
the upstream payload is internally consistent — every parsed item's reported
`debt_usd_value` equals the sum over its borrow tokens of `amount · price` —
and the generated position keys are pairwise distinct (no key collision ever
overwrites an entry), then the aggregate total debt equals the sum of the
per-key USD values stored in the positions mapping. -/
theorem c6_amended (protocols : List DebtLib.Protocol) (time : Timestamp)
    (address tag : String)
    (hkeys : (DebtLib.emittedKeys protocols).Nodup)
    (hcons : ∀ p ∈ protocols, ∀ item ∈ p.portfolio_item_list,
      DebtLib.consistencyItem item) :
    (DebtLib._query_new_debts_debank protocols time address tag).total_debt =
      DebtLib._compute_total_debt
        (DebtLib._query_new_debts_debank protocols time address tag).individual_debts := by
  unfold DebtLib._query_new_debts_debank
  exact (parse_protocols_fold protocols ⟨time, address, tag, 0, 0, []⟩
    (by simpa [DebtLib.keysOf] using hkeys) hcons (by rfl)).1

/-- Claim C6, witness: on a consistent payload (debt_usd_value 900 = 450·2)
the invariant holds. -/
theorem c6_amended_witness :
    (DebtLib._query_new_debts_debank [Examples.protoC6w] ⟨0, 0⟩ "a" "t").total_debt =
      DebtLib._compute_total_debt
        (DebtLib._query_new_debts_debank [Examples.protoC6w] ⟨0, 0⟩ "a" "t").individual_debts :=
  c6_amended [Examples.protoC6w] ⟨0, 0⟩ "a" "t" (by decide) (by decide)
